import Mathlib

/-!
Shallow embedding of the `productionhub` generator pipeline
(`src/generator/generate.py`, `src/generator/generators/companion_generator.py`,
`src/generator/generators/checklist_generator.py`).

The raw YAML event document is modelled as nested structures whose fields are
`Option`-typed: an absent key is `none`, and every Python `dict.get(k, default)`
becomes `Option.getD`.  Python runtime values appearing as hub-action arguments
are modelled by the inductive `PyVal`, whose constructors mirror the
`isinstance` dispatch in `CompanionGenerator._hub_actions_to_osc`
(float / int / str / anything else, the latter carried together with its
`str()` rendering).  `datetime.now().strftime("%Y-%m-%d")` in
`ChecklistGenerator._header` is modelled as an explicit `date : String`
parameter threaded into the checklist generator: the ambient-state input made
explicit.
-/

/-- A Python runtime value usable as a hub-action argument.
`pyOther` covers any value that is neither `float`, `int` nor `str`,
carried together with its `str()` rendering. -/
inductive PyVal where
  | pyFloat (repr_ : String)
  | pyInt (n : Int)
  | pyStr (s : String)
  | pyOther (str_ : String)
  deriving DecidableEq, Repr

/-- One entry of a cue's `hub_actions` list: `{address, args}`. -/
structure HubAction where
  address : Option String := none
  args : Option (List PyVal) := none
  deriving DecidableEq, Repr

/-- One entry of the `cues` list. -/
structure Cue where
  number : Option Nat := none
  id : Option String := none
  name : Option String := none
  type : Option String := none
  timing : Option String := none
  hub_actions : Option (List HubAction) := none
  deriving DecidableEq, Repr

/-- A recording sub-config (`audio.recording` / `video.recording`). -/
structure Recording where
  enabled : Option Bool := none
  format : Option String := none
  sample_rate : Option Nat := none
  bitrate : Option String := none
  deriving DecidableEq, Repr

/-- One entry of `audio.microphones`. -/
structure Microphone where
  id : Option String := none
  type : Option String := none
  model : Option String := none
  input_channel : Option Nat := none
  performer : Option String := none
  gain_db : Option Int := none
  deriving DecidableEq, Repr

/-- One entry of `video.cameras`. -/
structure Camera where
  id : Option String := none
  position : Option String := none
  shot : Option String := none
  resolution : Option String := none
  deriving DecidableEq, Repr

/-- One entry of `lighting.presets`. -/
structure LightingPreset where
  name : Option String := none
  description : Option String := none
  deriving DecidableEq, Repr

/-- One endpoint of the `network` mapping
(`hub` / `qlab` / `companion` / `touchdesigner` / `lighting_console`). -/
structure Endpoint where
  host : Option String := none
  port : Option Nat := none
  passcode : Option String := none
  protocol : Option String := none
  osc_listen_port : Option Nat := none
  deriving DecidableEq, Repr

/-- The `network` section of the document. -/
structure Network where
  hub : Option Endpoint := none
  qlab : Option Endpoint := none
  companion : Option Endpoint := none
  touchdesigner : Option Endpoint := none
  lighting_console : Option Endpoint := none
  deriving DecidableEq, Repr

/-- The `performers` section. -/
structure Performers where
  count : Option Nat := none
  deriving DecidableEq, Repr

/-- The `metadata` section. -/
structure Metadata where
  version : Option String := none
  deriving DecidableEq, Repr

/-- The `audio` section. -/
structure Audio where
  microphones : Option (List Microphone) := none
  recording : Option Recording := none
  deriving DecidableEq, Repr

/-- The `video` section. -/
structure Video where
  cameras : Option (List Camera) := none
  recording : Option Recording := none
  deriving DecidableEq, Repr

/-- The `lighting` section. -/
structure Lighting where
  controller : Option String := none
  «universe» : Option Nat := none
  presets : Option (List LightingPreset) := none
  deriving DecidableEq, Repr

/-- The whole parsed event document (`yaml.safe_load` result). -/
structure Event where
  event_type : Option String := none
  event_name : Option String := none
  venue : Option String := none
  performers : Option Performers := none
  metadata : Option Metadata := none
  network : Option Network := none
  audio : Option Audio := none
  video : Option Video := none
  lighting : Option Lighting := none
  cues : Option (List Cue) := none
  deriving DecidableEq, Repr

/-- `event.get("video", {}).get("cameras", [])`. -/
def Event.cameras_list (e : Event) : List Camera :=
  match e.video with
  | some v => v.cameras.getD []
  | none => []

/-- `event.get("audio", {}).get("microphones", [])`. -/
def Event.mics_list (e : Event) : List Microphone :=
  match e.audio with
  | some a => a.microphones.getD []
  | none => []

/-- `event.get("lighting", {}).get("presets", [])`. -/
def Event.presets_list (e : Event) : List LightingPreset :=
  match e.lighting with
  | some l => l.presets.getD []
  | none => []

/-- `event.get("network", {}).get("hub", {})`: `none` stands for the empty dict. -/
def Event.hub_cfg (e : Event) : Option Endpoint :=
  match e.network with
  | some n => n.hub
  | none => none

/-- `event.get("network", {}).get("qlab", {})`. -/
def Event.qlab_cfg (e : Event) : Option Endpoint :=
  match e.network with
  | some n => n.qlab
  | none => none

/-- `event.get("network", {}).get("companion", {})`. -/
def Event.companion_cfg (e : Event) : Option Endpoint :=
  match e.network with
  | some n => n.companion
  | none => none

/-- `event.get("network", {}).get("touchdesigner", {})`. -/
def Event.td_cfg (e : Event) : Option Endpoint :=
  match e.network with
  | some n => n.touchdesigner
  | none => none

/-- `event.get("network", {}).get("lighting_console", {})`. -/
def Event.lighting_console_cfg (e : Event) : Option Endpoint :=
  match e.network with
  | some n => n.lighting_console
  | none => none

/-- Host of an optional endpoint dict with a default: `ep.get("host", d)`. -/
def Endpoint.hostD (ep : Option Endpoint) (d : String) : String :=
  match ep with
  | some x => x.host.getD d
  | none => d

/-- Port of an optional endpoint dict with a default: `ep.get("port", d)`. -/
def Endpoint.portD (ep : Option Endpoint) (d : Nat) : Nat :=
  match ep with
  | some x => x.port.getD d
  | none => d

/-! ## Companion generator (`companion_generator.py`) -/

namespace CompanionGenerator

/-- One Companion OSC action, keeping the `actionId` variant and its options. -/
inductive OscAction where
  | send_float (path : String) (value : String)
  | send_integer (path : String) (value : Int)
  | send_string (path : String) (value : String)
  | send_no_args (path : String)
  deriving DecidableEq, Repr

/-- A Companion button: the style fields produced by `_make_button` plus the
`steps.step0.down` action list (an empty list models the empty `steps` dict,
since `_make_button` only adds `step0` when `actions` is truthy). -/
structure Button where
  text : String
  style : String
  size : String
  color : Nat
  bgcolor : Nat
  show_topbar : Bool
  actions : List OscAction
  deriving DecidableEq, Repr

/-- The `COLORS` palette, as `COLORS.get(style, COLORS["blank"])`:
returns the `(bg, text)` pair for a style key, defaulting to `"blank"`. -/
def COLORS (style : String) : Nat × Nat :=
  if style = "lighting" then (204 + 153 * 256 + 0 * 65536, 0)
  else if style = "audio" then (0 + 153 * 256 + 204 * 65536, 0)
  else if style = "video" then (51 + 102 * 256 + 204 * 65536, 16777215)
  else if style = "system" then (153 + 51 * 256 + 153 * 65536, 16777215)
  else if style = "go" then (0 + 204 * 256 + 0 * 65536, 0)
  else if style = "stop" then (204 + 0 * 256 + 0 * 65536, 16777215)
  else if style = "header" then (40 + 40 * 256 + 40 * 65536, 16777215)
  else (0, 5592405)

/-- `self.grid_cols = 8`. -/
def grid_cols : Nat := 8

/-- `self.grid_rows = 4`. -/
def grid_rows : Nat := 4

/-- `_make_button`. -/
def make_button (text : String) (style : String) (size : String)
    (actions : List OscAction) : Button :=
  let palette := COLORS style
  { text := text
    style := style
    size := size ++ "px"
    color := palette.2
    bgcolor := palette.1
    show_topbar := style != "header"
    actions := actions }

/-- The per-element dispatch inside `_hub_actions_to_osc`: variant chosen by
the runtime type of the first declared argument, `osc:send_no_args` when the
`args` key is absent or the list is empty. -/
def osc_action_of (ha : HubAction) : OscAction :=
  let address := ha.address.getD ""
  match ha.args with
  | some (arg :: _) =>
    match arg with
    | .pyFloat s => .send_float address s
    | .pyInt n => .send_integer address n
    | .pyStr s => .send_string address s
    | .pyOther s => .send_string address s
  | _ => .send_no_args address

/-- `_hub_actions_to_osc`: one Companion action per hub action, in order. -/
def hub_actions_to_osc (hub_actions : List HubAction) : List OscAction :=
  hub_actions.map osc_action_of

/-- `cue.get("number", "???")` followed by its f-string rendering. -/
def cue_number_str (c : Cue) : String :=
  match c.number with
  | some n => toString n
  | none => "???"

/-- `_make_cue_button`. -/
def make_cue_button (c : Cue) : Button :=
  let cue_type := c.type.getD "system"
  let cue_number := cue_number_str c
  let cue_name := c.name.getD "Untitled"
  let hub_actions := c.hub_actions.getD []
  let display_name := cue_name.take 16
  let actions :=
    if hub_actions.isEmpty then
      [OscAction.send_no_args ("/cue/" ++ cue_number ++ "/start")]
    else
      hub_actions_to_osc hub_actions
  make_button ("Q" ++ cue_number ++ "\n" ++ display_name) cue_type "12" actions

/-- `_make_go_button`: no `actions` argument, so the button has no steps. -/
def make_go_button : Button :=
  make_button "GO\n(QLab)" "go" "14" []

/-- `_make_stop_button`: no `actions` argument, so the button has no steps. -/
def make_stop_button : Button :=
  make_button "STOP\n(QLab)" "stop" "14" []

/-- The ordered trace of `buttons[f"{row},{col}"] = ...` writes of one page;
the final dict maps a key to the LAST write at that key. -/
abbrev Writes := List ((Nat × Nat) × Button)

/-- Final dict state: the value of the last write at key `k`, if any. -/
def getButton : Writes → (Nat × Nat) → Option Button
  | [], _ => none
  | p :: rest, k =>
    match getButton rest k with
    | some b => some b
    | none => if p.1 = k then some p.2 else none

/-- One timing bucket's placement loop: starting at `(row, col)`, each cue is
written left-to-right, wrapping to `(row+1, 0)` whenever `col` reaches
`grid_cols` (the `if col >= self.grid_cols` check precedes each write). -/
def place_bucket : List Cue → Nat → Nat → Writes
  | [], _, _ => []
  | c :: rest, row, col =>
    if col ≥ grid_cols then
      ((row + 1, 0), make_cue_button c) :: place_bucket rest (row + 1) 1
    else
      ((row, col), make_cue_button c) :: place_bucket rest row (col + 1)

/-- `cues` partitioned as in `_build_show_control_page`. -/
def pre_show_cues (e : Event) : List Cue :=
  (e.cues.getD []).filter (fun c => c.timing == some "pre-show")

/-- Everything whose timing is neither `"pre-show"` nor `"post-show"`. -/
def show_cues (e : Event) : List Cue :=
  (e.cues.getD []).filter
    (fun c => !(c.timing == some "pre-show") && !(c.timing == some "post-show"))

/-- Cues whose timing is `"post-show"`. -/
def post_show_cues (e : Event) : List Cue :=
  (e.cues.getD []).filter (fun c => c.timing == some "post-show")

/-- The cue-button writes of the Show Control page: the three buckets with
their independently fixed starting rows 1, 2 and 3. -/
def show_control_cue_writes (e : Event) : Writes :=
  place_bucket (pre_show_cues e) 1 0
  ++ place_bucket (show_cues e) 2 0
  ++ place_bucket (post_show_cues e) 3 0

/-- `_build_show_control_page`, as its ordered trace of button writes. -/
def build_show_control_page (e : Event) : Writes :=
  [((0, 0), make_button (e.event_name.getD "Show" ++ "\nCONTROL") "header" "14" []),
   ((0, 1), make_button "PRE-SHOW" "header" "14" []),
   ((0, 4), make_button "SHOW" "header" "14" []),
   ((0, 6), make_button "POST-SHOW" "header" "14" []),
   ((0, 2), make_go_button),
   ((0, 3), make_stop_button)]
  ++ show_control_cue_writes e

/-- The camera button for index `i` (0-based) in `_build_av_control_page`. -/
def make_camera_button (i : Nat) (cam : Camera) : Button :=
  let cam_id := cam.id.getD ("cam" ++ toString (i + 1))
  let shot := cam.shot.getD ""
  let scene_name := cam_id.replace "cam" "Camera"
  make_button (cam_id.toUpper ++ "\n" ++ shot) "video" "14"
    [.send_no_args ("/obs/scene/" ++ scene_name),
     .send_no_args ("/" ++ cam_id ++ "/preset/recall/1")]

/-- The camera-row loop: one write at `(1, i+1)` per camera, unconditionally. -/
def camera_writes : List Camera → Nat → Writes
  | [], _ => []
  | cam :: rest, i =>
    ((1, i + 1), make_camera_button i cam) :: camera_writes rest (i + 1)

/-- `mic.get("id", f"mic{i+1}")`. -/
def mic_id_of (i : Nat) (mic : Microphone) : String :=
  mic.id.getD ("mic" ++ toString (i + 1))

/-- `f"/avantis/ch/{channel}/mix/mute"` with `channel = mic.get("input_channel", i+1)`. -/
def mute_path_of (i : Nat) (mic : Microphone) : String :=
  "/avantis/ch/" ++ toString (mic.input_channel.getD (i + 1)) ++ "/mix/mute"

/-- The mute button for microphone index `i`. -/
def make_mute_button (i : Nat) (mic : Microphone) : Button :=
  make_button ((mic_id_of i mic).toUpper ++ "\nMUTE") "audio" "14"
    [.send_integer (mute_path_of i mic) 1]

/-- The unmute button for microphone index `i`. -/
def make_unmute_button (i : Nat) (mic : Microphone) : Button :=
  make_button ((mic_id_of i mic).toUpper ++ "\nUNMUTE") "go" "14"
    [.send_integer (mute_path_of i mic) 0]

/-- The audio-row loop: per microphone, a mute write at `(2, i+1)` and, only
when `i + 1 + len(mics) < grid_cols`, an unmute write at `(2, i+1+len(mics))`;
`m` is the fixed total `len(mics)`. -/
def mic_writes : List Microphone → Nat → Nat → Writes
  | [], _, _ => []
  | mic :: rest, i, m =>
    (((2, i + 1), make_mute_button i mic)
      :: (if i + 1 + m < grid_cols
          then [((2, i + 1 + m), make_unmute_button i mic)]
          else []))
    ++ mic_writes rest (i + 1) m

/-- The lighting-preset button for index `i`. -/
def make_preset_button (i : Nat) (preset : LightingPreset) : Button :=
  let preset_name := preset.name.getD ("Preset " ++ toString (i + 1))
  let exec_num := i + 1
  let display :=
    if preset_name.length > 10 then preset_name.replace " " "\n" else preset_name
  make_button display "lighting" "11"
    [.send_no_args ("/lights/exec/" ++ toString exec_num)]

/-- The lighting-row loop body over `presets[:7]`. -/
def preset_writes : List LightingPreset → Nat → Writes
  | [], _ => []
  | preset :: rest, i =>
    ((3, i + 1), make_preset_button i preset) :: preset_writes rest (i + 1)

/-- `_build_av_control_page`, as its ordered trace of button writes. -/
def build_av_control_page (e : Event) : Writes :=
  [((0, 0), make_button "A/V\nCONTROL" "header" "14" []),
   ((1, 0), make_button "CAMERAS" "header" "12" [])]
  ++ camera_writes e.cameras_list 0
  ++ [((2, 0), make_button "AUDIO" "header" "12" [])]
  ++ mic_writes e.mics_list 0 e.mics_list.length
  ++ [((3, 0), make_button "LIGHTING" "header" "12" [])]
  ++ preset_writes (e.presets_list.take 7) 0

/-- The `connections` entry built by `_build_osc_connection`. -/
structure OscConnection where
  id : String
  module_name : String
  label : String
  host : String
  port : Nat
  send_enabled : Bool
  deriving DecidableEq, Repr

/-- `_build_osc_connection`: the hub endpoint with defaults `127.0.0.1:9000`. -/
def build_osc_connection (e : Event) : OscConnection :=
  let hub := e.hub_cfg
  { id := "osc_hub"
    module_name := "generic-osc"
    label := "Production Hub"
    host := Endpoint.hostD hub "127.0.0.1"
    port := Endpoint.portD hub 9000
    send_enabled := true }

end CompanionGenerator

/-! ## Checklist generator (`checklist_generator.py`) -/

/-- `"\n".join(lines)`. -/
def join_nl : List String → String
  | [] => ""
  | [s] => s
  | s :: rest => s ++ "\n" ++ join_nl rest

namespace ChecklistGenerator

/-- Everything of `_header` before the `{date}` substitution. -/
def header_pre (e : Event) : String :=
  let event_name := e.event_name.getD "Untitled Event"
  let event_type := e.event_type.getD "unknown"
  let venue := e.venue.getD "TBD"
  let performers :=
    match e.performers with
    | some p => p.count.getD 0
    | none => 0
  "# Setup Checklist: " ++ event_name
    ++ "\n\n| Field | Value |\n|-------|-------|\n| Event Type | `"
    ++ event_type ++ "` |\n| Venue | " ++ venue ++ " |\n| Performers | "
    ++ toString performers ++ " |\n| Generated | "

/-- Everything of `_header` after the `{date}` substitution. -/
def header_post (e : Event) : String :=
  let version :=
    match e.metadata with
    | some m => m.version.getD "1.0"
    | none => "1.0"
  " |\n| Template Version | " ++ version ++ " |\n\n---\n\n"

/-- `_header`, with `datetime.now().strftime("%Y-%m-%d")` made an explicit
`date` input. -/
def header (e : Event) (date : String) : String :=
  header_pre e ++ date ++ header_post e

/-- `mic.get("input_channel", "?")` rendered as in the checklist f-strings. -/
def channel_str (mic : Microphone) : String :=
  match mic.input_channel with
  | some n => toString n
  | none => "?"

/-- The per-microphone lines of `_hardware_setup`. -/
def hardware_mic_lines (mic : Microphone) : List String :=
  let mic_id := mic.id.getD "unknown"
  let mic_type := mic.type.getD "unknown"
  let model := mic.model.getD "TBD"
  let performer := mic.performer.getD "TBD"
  ["- [ ] **" ++ mic_id ++ "** (" ++ mic_type ++ "): " ++ model,
   "  - Assigned to: " ++ performer,
   "  - Input channel: " ++ channel_str mic,
   "  - Battery check: fresh batteries installed"]

/-- The per-camera lines of `_hardware_setup`. -/
def hardware_cam_lines (cam : Camera) : List String :=
  let cam_id := cam.id.getD "unknown"
  let position := cam.position.getD "TBD"
  let shot := cam.shot.getD "TBD"
  let resolution := cam.resolution.getD "1080p"
  ["- [ ] **" ++ cam_id ++ "** positioned at " ++ position,
   "  - Shot type: " ++ shot,
   "  - Resolution: " ++ resolution,
   "  - Focus and framing verified"]

/-- `recording.get("enabled")` truthiness. -/
def recording_enabled (r : Option Recording) : Bool :=
  match r with
  | some rec => rec.enabled.getD false
  | none => false

/-- `_hardware_setup`. -/
def hardware_setup (e : Event) : String :=
  let mics := e.mics_list
  let cameras := e.cameras_list
  let audio_rec := match e.audio with | some a => a.recording | none => none
  let video_rec := match e.video with | some v => v.recording | none => none
  let audio_rec_lines :=
    if recording_enabled audio_rec then
      let fmt := (match audio_rec with | some r => r.format.getD "wav" | none => "wav")
      let rate := (match audio_rec with | some r => r.sample_rate.getD 48000 | none => 48000)
      ["- [ ] Audio recording configured (" ++ fmt ++ ", " ++ toString rate ++ "Hz)"]
    else []
  let video_rec_lines :=
    if recording_enabled video_rec then
      let fmt := (match video_rec with | some r => r.format.getD "h264" | none => "h264")
      let rate := (match video_rec with | some r => r.bitrate.getD "20Mbps" | none => "20Mbps")
      ["- [ ] Video recording configured (" ++ fmt ++ ", " ++ rate ++ ")"]
    else []
  join_nl (["## 1. Hardware Setup", "", "### Audio", ""]
    ++ (mics.map hardware_mic_lines).flatten
    ++ audio_rec_lines
    ++ ["", "### Video", ""]
    ++ (cameras.map hardware_cam_lines).flatten
    ++ video_rec_lines
    ++ [""])

/-- The lines of `_network_setup` (the section is their `"\n"`-join). -/
def network_setup_lines (e : Event) : List String :=
  let hub := e.hub_cfg
  let qlab := e.qlab_cfg
  let companion := e.companion_cfg
  let td := e.td_cfg
  let lighting := e.lighting_console_cfg
  let td_listen :=
    match td with
    | some x => x.osc_listen_port.getD 12000
    | none => 12000
  let l_port :=
    match lighting with
    | some x => (match x.port with | some n => toString n | none => "TBD")
    | none => "TBD"
  let l_protocol :=
    match lighting with
    | some x => x.protocol.getD "OSC"
    | none => "OSC"
  ["## 2. Network Configuration",
   "",
   "- [ ] All devices on same network / VLAN",
   "- [ ] Production Hub running at `" ++ Endpoint.hostD hub "127.0.0.1" ++ ":"
     ++ toString (Endpoint.portD hub 9000) ++ "`",
   "- [ ] Hub dashboard accessible at `http://" ++ Endpoint.hostD hub "127.0.0.1"
     ++ ":8080/`",
   "- [ ] All hub drivers connected (check `/health` endpoint)",
   "- [ ] QLab machine reachable at `" ++ Endpoint.hostD qlab "127.0.0.1" ++ ":"
     ++ toString (Endpoint.portD qlab 53000) ++ "`",
   "- [ ] Companion reachable at `" ++ Endpoint.hostD companion "127.0.0.1" ++ ":"
     ++ toString (Endpoint.portD companion 8000) ++ "`",
   "- [ ] TouchDesigner OSC listening on port `" ++ toString td_listen ++ "`",
   "- [ ] Lighting console at `" ++ Endpoint.hostD lighting "TBD" ++ ":" ++ l_port
     ++ "` (" ++ l_protocol ++ ")",
   "- [ ] Firewall rules allow OSC traffic (UDP) between all devices",
   "- [ ] Network switch / router powered and verified",
   "",
   ""]

/-- `_network_setup`. -/
def network_setup (e : Event) : String :=
  join_nl (network_setup_lines e)

/-- `_software_config`. -/
def software_config (e : Event) : String :=
  let hub := e.hub_cfg
  let qlab_passcode :=
    match e.qlab_cfg with
    | some x => x.passcode.getD "1234"
    | none => "1234"
  let hub_port := Endpoint.portD hub 9000
  let td_port :=
    match e.td_cfg with
    | some x => x.osc_listen_port.getD 12000
    | none => 12000
  join_nl
    ["## 3. Software Configuration",
     "",
     "### Production Hub",
     "- [ ] Hub process running (`npm start` or systemd service)",
     "- [ ] All device drivers connected (check dashboard at `:8080`)",
     "- [ ] Hub OSC port `" ++ toString hub_port ++ "` receiving traffic",
     "- [ ] Systems check passing (`/system/check`)",
     "",
     "### QLab",
     "- [ ] QLab workspace open",
     "- [ ] OSC passcode set to `" ++ qlab_passcode ++ "`",
     "- [ ] Cue list built (run `standard_recital_qlab_cues.py`)",
     "- [ ] Network cues targeting hub verified (check destination host/port)",
     "- [ ] All cues verified in cue list",
     "",
     "### Companion",
     "- [ ] Companion running and accessible via web UI",
     "- [ ] Page configuration imported (`companion_config.json`)",
     "- [ ] OSC connection to Production Hub verified (test a cue button)",
     "- [ ] Stream Deck / control surface connected and showing buttons",
     "",
     "### TouchDesigner",
     "- [ ] TouchDesigner project open",
     "- [ ] Setup script executed (`touchdesigner_setup.py`)",
     "- [ ] Camera inputs recognized and showing video",
     "- [ ] OSC input receiving from hub on port `" ++ toString td_port ++ "`",
     "- [ ] Video switch responding to cue triggers",
     "",
     ""]

/-- The per-microphone lines of `_sound_check`. -/
def sound_check_mic_lines (mic : Microphone) : List String :=
  let mic_id := mic.id.getD "unknown"
  let performer := mic.performer.getD "TBD"
  let gain := mic.gain_db.getD (-12)
  ["- [ ] **" ++ mic_id ++ "** (" ++ performer ++ ")",
   "  - Channel " ++ channel_str mic ++ " signal present",
   "  - Gain at " ++ toString gain ++ "dB, adjust to taste",
   "  - No feedback at performance levels",
   "  - Monitor mix set for performer"]

/-- `_sound_check`. -/
def sound_check (e : Event) : String :=
  join_nl (["## 4. Sound Check", ""]
    ++ (e.mics_list.map sound_check_mic_lines).flatten
    ++ ["- [ ] Main mix balanced",
        "- [ ] Recording levels verified (peaks below -6dB)",
        "- [ ] Mute/unmute cues tested from Companion",
        ""])

/-- The per-camera lines of `_video_check`. -/
def video_check_cam_lines (cam : Camera) : List String :=
  let cam_id := cam.id.getD "unknown"
  let shot := cam.shot.getD "TBD"
  ["- [ ] **" ++ cam_id ++ "** (" ++ shot ++ " shot)",
   "  - Image quality verified",
   "  - White balance set",
   "  - Focus locked"]

/-- `_video_check`. -/
def video_check (e : Event) : String :=
  join_nl (["## 5. Video Check", ""]
    ++ (e.cameras_list.map video_check_cam_lines).flatten
    ++ ["- [ ] Video switch tested (all camera cuts clean)",
        "- [ ] Recording test: start/stop verified",
        "- [ ] Output feed confirmed on program monitor",
        ""])

/-- The per-preset lines of `_lighting_check` (`if desc:` is non-emptiness). -/
def lighting_preset_lines (preset : LightingPreset) : List String :=
  let name := preset.name.getD "Unknown"
  let desc := preset.description.getD ""
  ["- [ ] Preset **" ++ name ++ "** verified"]
    ++ (if desc.isEmpty then [] else ["  - " ++ desc])

/-- `_lighting_check`. -/
def lighting_check (e : Event) : String :=
  let controller :=
    match e.lighting with
    | some l => l.controller.getD "TBD"
    | none => "TBD"
  let universe_num :=
    match e.lighting with
    | some l => l.universe.getD 1
    | none => 1
  join_nl (["## 6. Lighting Check",
            "",
            "- [ ] Lighting console: " ++ controller,
            "- [ ] Universe: " ++ toString universe_num,
            ""]
    ++ (e.presets_list.map lighting_preset_lines).flatten
    ++ ["- [ ] All lighting cues fire correctly from QLab/Companion",
        "- [ ] Fade times feel appropriate",
        ""])

/-- The per-cue line of `_show_time`'s cue-sequence block. -/
def cue_line (c : Cue) : String :=
  let number :=
    match c.number with
    | some n => toString n
    | none => "???"
  let name := c.name.getD "Untitled"
  let timing := c.timing.getD "manual"
  let cue_type := c.type.getD "unknown"
  "- [ ] **Q" ++ number ++ "** " ++ name ++ " [" ++ cue_type ++ "] @ " ++ timing

/-- `_show_time`. -/
def show_time (e : Event) : String :=
  join_nl (["## 7. Show Time Checklist",
            "",
            "### 15 Minutes Before",
            "- [ ] All systems powered and stable",
            "- [ ] Recording media has sufficient space",
            "- [ ] Companion page on Show Control",
            "- [ ] QLab playhead on first cue",
            "",
            "### 5 Minutes Before",
            "- [ ] House to half (cue ready)",
            "- [ ] Performers miked and in position",
            "- [ ] Stage manager confirms ready",
            "",
            "### Cue Sequence",
            ""]
    ++ (e.cues.getD []).map cue_line
    ++ [""])

/-- `_post_show`. -/
def post_show : String :=
  join_nl ["## 8. Post-Show",
           "",
           "- [ ] Recording stopped and files verified",
           "- [ ] All recordings backed up to secondary media",
           "- [ ] Microphones powered down, batteries removed",
           "- [ ] Cameras powered down",
           "- [ ] Lighting returned to house preset",
           "- [ ] QLab workspace saved",
           "- [ ] Companion configuration saved",
           "- [ ] Network equipment powered down (if applicable)",
           "- [ ] Venue walkthrough - all gear accounted for",
           "",
           ""]

/-- `_emergency_contacts`. -/
def emergency_contacts : String :=
  join_nl ["## 9. Emergency Procedures",
           "",
           "- [ ] Know location of circuit breaker panel",
           "- [ ] Backup audio path identified (direct mic to speaker)",
           "- [ ] Manual camera override procedure known",
           "- [ ] Lighting console manual override accessible",
           "- [ ] Contact info for:",
           "  - [ ] Venue technical contact: _______________",
           "  - [ ] Audio engineer: _______________",
           "  - [ ] Video operator: _______________",
           "  - [ ] Lighting operator: _______________",
           "",
           "---",
           "*Generated by the Production Event Template System*",
           ""]

/-- `generate`: the ten sections joined with `"\n"`, with the ambient
`datetime.now()` date of `_header` passed in explicitly. -/
def generate (e : Event) (date : String) : String :=
  join_nl [header e date,
           hardware_setup e,
           network_setup e,
           software_config e,
           sound_check e,
           video_check e,
           lighting_check e,
           show_time e,
           post_show,
           emergency_contacts]

end ChecklistGenerator

/-! ## Validator (`generate.py`, `load_event`) -/

namespace Loader

/-- A fatal validation error (`sys.exit(1)` after the error message). -/
inductive ValidationError where
  | missingRequiredField (key : String)
  deriving DecidableEq, Repr

/-- A non-fatal warning printed by `load_event`. -/
inductive Warning where
  | unknownAddress (cue_id : Option String) (address : String)
  | missingHubConfig
  deriving DecidableEq, Repr

/-- The `known_prefixes` list checked against each hub action address. -/
def knownHubRoutes : List String :=
  ["/avantis", "/lights", "/obs", "/cam", "/td", "/fade", "/system"]

/-- `any(address.startswith(p) for p in known_prefixes)`. -/
def address_known (address : String) : Bool :=
  knownHubRoutes.any (fun p => address.startsWith p)

/-- The unknown-address warnings produced for one cue's `hub_actions`. -/
def cue_action_warnings (c : Cue) : List Warning :=
  (c.hub_actions.getD []).filterMap (fun a =>
    let address := a.address.getD ""
    if address_known address then none
    else some (.unknownAddress c.id address))

/-- All unknown-address warnings, in cue order. -/
def address_warnings (e : Event) : List Warning :=
  ((e.cues.getD []).map cue_action_warnings).flatten

/-- `has_hub_actions`: set when the action loop runs at least once. -/
def has_hub_actions (e : Event) : Bool :=
  (e.cues.getD []).any (fun c => !(c.hub_actions.getD []).isEmpty)

/-- `"hub" not in data.get("network", {})`. -/
def hub_config_missing (e : Event) : Bool :=
  e.hub_cfg.isNone

/-- All warnings printed by a successful `load_event` run, in print order. -/
def validation_warnings (e : Event) : List Warning :=
  address_warnings e
    ++ (if has_hub_actions e && hub_config_missing e then [.missingHubConfig] else [])

/-- `load_event` after YAML parsing: fatal exactly when a required key is
absent (checked in the order `event_type`, `cues`); otherwise the data is
returned unchanged together with the non-fatal warnings. -/
def load_event (e : Event) : Except ValidationError (Event × List Warning) :=
  if e.event_type.isNone then .error (.missingRequiredField "event_type")
  else if e.cues.isNone then .error (.missingRequiredField "cues")
  else .ok (e, validation_warnings e)

end Loader

/-! ## Script generators missing from `src/` -/

/-- Modelled from the spec: `generators/qlab_generator.py` is imported by
`generate.py` but is not under `src/`.  Per the spec the QLab cue-sequencing
script emits one network action per hub action "addressed to the configured
hub host/port", with the documented default endpoint (loopback, port 9000)
substituted when the hub config is absent.  This is the hub endpoint the
emitted script embeds. -/
def qlab_script_hub_endpoint (e : Event) : String × Nat :=
  (Endpoint.hostD e.hub_cfg "127.0.0.1", Endpoint.portD e.hub_cfg 9000)

/-- Modelled from the spec: `generators/touchdesigner_generator.py` is
imported by `generate.py` but is not under `src/`.  Per the spec the
realtime-graphics setup script triggers "the same address used by the Panel
and Cue-Sequencing compilers" and embeds the same hub network endpoint as the
other artifacts, with the same documented defaults.  This is the hub endpoint
the emitted script embeds. -/
def touchdesigner_script_hub_endpoint (e : Event) : String × Nat :=
  (Endpoint.hostD e.hub_cfg "127.0.0.1", Endpoint.portD e.hub_cfg 9000)

/-- The hub endpoint rendered into the checklist's network section
(`_network_setup`, the "Production Hub running at" line). -/
def checklist_hub_endpoint (e : Event) : String × Nat :=
  (Endpoint.hostD e.hub_cfg "127.0.0.1", Endpoint.portD e.hub_cfg 9000)

/-! ## Lemmas about the grid write traces -/

namespace CompanionGenerator

theorem getButton_append (w₁ w₂ : Writes) (k : Nat × Nat) :
    getButton (w₁ ++ w₂) k =
      match getButton w₂ k with
      | some b => some b
      | none => getButton w₁ k := by
  induction w₁ with
  | nil =>
    simp only [List.nil_append]
    cases getButton w₂ k <;> simp [getButton]
  | cons p t ih =>
    have hdef : getButton ((p :: t) ++ w₂) k =
        match getButton (t ++ w₂) k with
        | some b => some b
        | none => if p.1 = k then some p.2 else none := rfl
    rw [hdef, ih]
    cases h₂ : getButton w₂ k <;> cases h₁ : getButton t k <;>
      simp [getButton, h₁]

theorem getButton_eq_none (w : Writes) (k : Nat × Nat)
    (h : ∀ p ∈ w, p.1 ≠ k) : getButton w k = none := by
  induction w with
  | nil => rfl
  | cons p t ih =>
    simp only [getButton, ih (fun q hq => h q (List.mem_cons_of_mem _ hq))]
    exact if_neg (h p (List.mem_cons_self _ _))

theorem camera_writes_rows (cams : List Camera) (i : Nat) :
    ∀ p ∈ camera_writes cams i, p.1.1 = 1 ∧ i + 1 ≤ p.1.2 := by
  induction cams generalizing i with
  | nil => intro p hp; cases hp
  | cons cam rest ih =>
    intro p hp
    rcases List.mem_cons.mp hp with h | h
    · subst h; exact ⟨rfl, Nat.le_refl _⟩
    · rcases ih (i + 1) p h with ⟨h1, h2⟩
      exact ⟨h1, by omega⟩

theorem mic_writes_rows (mics : List Microphone) (i m : Nat) :
    ∀ p ∈ mic_writes mics i m, p.1.1 = 2 ∧ i + 1 ≤ p.1.2 := by
  induction mics generalizing i with
  | nil => intro p hp; cases hp
  | cons mic rest ih =>
    intro p hp
    simp only [mic_writes, List.cons_append, List.mem_cons] at hp
    rcases hp with h | hp
    · subst h; exact ⟨rfl, Nat.le_refl _⟩
    · rcases List.mem_append.mp hp with h | h
      · by_cases hc : i + 1 + m < grid_cols
        · simp only [if_pos hc, List.mem_singleton] at h
          subst h; exact ⟨rfl, by show i + 1 ≤ i + 1 + m; omega⟩
        · simp [if_neg hc] at h
      · rcases ih (i + 1) p h with ⟨h1, h2⟩
        exact ⟨h1, by omega⟩

theorem preset_writes_rows (presets : List LightingPreset) (i : Nat) :
    ∀ p ∈ preset_writes presets i, p.1.1 = 3 ∧ i + 1 ≤ p.1.2 := by
  induction presets generalizing i with
  | nil => intro p hp; cases hp
  | cons preset rest ih =>
    intro p hp
    rcases List.mem_cons.mp hp with h | h
    · subst h; exact ⟨rfl, Nat.le_refl _⟩
    · rcases ih (i + 1) p h with ⟨h1, h2⟩
      exact ⟨h1, by omega⟩

end CompanionGenerator

namespace CompanionGenerator

theorem getButton_camera_writes_ne_row (cams : List Camera) (i : Nat)
    (r c : Nat) (hr : r ≠ 1) :
    getButton (camera_writes cams i) (r, c) = none :=
  getButton_eq_none _ _ (fun p hp hk => by
    rcases camera_writes_rows cams i p hp with ⟨h1, _⟩
    rw [hk] at h1
    exact hr h1)

theorem getButton_mic_writes_ne_row (mics : List Microphone) (i m : Nat)
    (r c : Nat) (hr : r ≠ 2) :
    getButton (mic_writes mics i m) (r, c) = none :=
  getButton_eq_none _ _ (fun p hp hk => by
    rcases mic_writes_rows mics i m p hp with ⟨h1, _⟩
    rw [hk] at h1
    exact hr h1)

theorem getButton_preset_writes_ne_row (presets : List LightingPreset) (i : Nat)
    (r c : Nat) (hr : r ≠ 3) :
    getButton (preset_writes presets i) (r, c) = none :=
  getButton_eq_none _ _ (fun p hp hk => by
    rcases preset_writes_rows presets i p hp with ⟨h1, _⟩
    rw [hk] at h1
    exact hr h1)

theorem getButton_camera_writes_lt (cams : List Camera) (i : Nat)
    (r c : Nat) (hc : c < i + 1) :
    getButton (camera_writes cams i) (r, c) = none :=
  getButton_eq_none _ _ (fun p hp hk => by
    rcases camera_writes_rows cams i p hp with ⟨_, h2⟩
    rw [hk] at h2
    omega)

theorem getButton_mic_writes_lt (mics : List Microphone) (i m : Nat)
    (r c : Nat) (hc : c < i + 1) :
    getButton (mic_writes mics i m) (r, c) = none :=
  getButton_eq_none _ _ (fun p hp hk => by
    rcases mic_writes_rows mics i m p hp with ⟨_, h2⟩
    rw [hk] at h2
    omega)

theorem getButton_preset_writes_lt (presets : List LightingPreset) (i : Nat)
    (r c : Nat) (hc : c < i + 1) :
    getButton (preset_writes presets i) (r, c) = none :=
  getButton_eq_none _ _ (fun p hp hk => by
    rcases preset_writes_rows presets i p hp with ⟨_, h2⟩
    rw [hk] at h2
    omega)

/-- If the later writes miss the key, lookup falls back to the earlier ones. -/
theorem getButton_append_right_none (w₁ w₂ : Writes) (k : Nat × Nat)
    (h : getButton w₂ k = none) :
    getButton (w₁ ++ w₂) k = getButton w₁ k := by
  rw [getButton_append, h]

/-- Looking up row 1 of the A/V page at a positive column reaches exactly the
camera-row writes. -/
theorem getButton_av_row1 (e : Event) (c : Nat) (hc : 0 < c) :
    getButton (build_av_control_page e) (1, c)
      = getButton (camera_writes e.cameras_list 0) (1, c) := by
  obtain ⟨d, rfl⟩ : ∃ d, c = d + 1 := ⟨c - 1, by omega⟩
  simp only [build_av_control_page, List.append_assoc]
  rw [getButton_append, getButton_append, getButton_append, getButton_append,
      getButton_append]
  rw [getButton_preset_writes_ne_row _ _ 1 (d + 1) (by omega),
      getButton_mic_writes_ne_row _ _ _ 1 (d + 1) (by omega)]
  cases hcam : getButton (camera_writes e.cameras_list 0) (1, d + 1) <;>
    simp [hcam, getButton, Prod.ext_iff]

/-- Looking up row 2 of the A/V page at a positive column reaches exactly the
audio-row writes. -/
theorem getButton_av_row2 (e : Event) (c : Nat) (hc : 0 < c) :
    getButton (build_av_control_page e) (2, c)
      = getButton (mic_writes e.mics_list 0 e.mics_list.length) (2, c) := by
  obtain ⟨d, rfl⟩ : ∃ d, c = d + 1 := ⟨c - 1, by omega⟩
  simp only [build_av_control_page, List.append_assoc]
  rw [getButton_append, getButton_append, getButton_append, getButton_append,
      getButton_append]
  rw [getButton_preset_writes_ne_row _ _ 2 (d + 1) (by omega),
      getButton_camera_writes_ne_row _ _ 2 (d + 1) (by omega)]
  cases hmic : getButton (mic_writes e.mics_list 0 e.mics_list.length) (2, d + 1) <;>
    simp [hmic, getButton, Prod.ext_iff]

/-- Looking up row 3 of the A/V page at a positive column reaches exactly the
lighting-row writes. -/
theorem getButton_av_row3 (e : Event) (c : Nat) (hc : 0 < c) :
    getButton (build_av_control_page e) (3, c)
      = getButton (preset_writes (e.presets_list.take 7) 0) (3, c) := by
  obtain ⟨d, rfl⟩ : ∃ d, c = d + 1 := ⟨c - 1, by omega⟩
  simp only [build_av_control_page, List.append_assoc]
  rw [getButton_append, getButton_append, getButton_append, getButton_append,
      getButton_append]
  rw [getButton_mic_writes_ne_row _ _ _ 3 (d + 1) (by omega),
      getButton_camera_writes_ne_row _ _ 3 (d + 1) (by omega)]
  cases hpre : getButton (preset_writes (e.presets_list.take 7) 0) (3, d + 1) <;>
    simp [hpre, getButton, Prod.ext_iff]

end CompanionGenerator

theorem take_get_drop {α : Type} (l : List α) (i : Nat) (h : i < l.length) :
    l.take i ++ l.get ⟨i, h⟩ :: l.drop (i + 1) = l := by
  induction l generalizing i with
  | nil => simp at h
  | cons a t ih =>
    cases i with
    | zero => simp
    | succ n =>
      simp only [List.take_succ_cons, List.drop_succ_cons, List.get,
        List.cons_append, List.cons.injEq, true_and]
      exact ih n (by simpa using h)

namespace CompanionGenerator

theorem getButton_camera_writes_decomp (pre : List Camera) (cam : Camera)
    (post : List Camera) (i : Nat) :
    getButton (camera_writes (pre ++ cam :: post) i) (1, i + pre.length + 1)
      = some (make_camera_button (i + pre.length) cam) := by
  induction pre generalizing i with
  | nil =>
    simp only [List.nil_append, camera_writes, List.length_nil, Nat.add_zero,
      getButton]
    rw [getButton_camera_writes_lt post (i + 1) 1 (i + 1) (by omega)]
    simp
  | cons p pre ih =>
    simp only [List.cons_append, camera_writes, List.length_cons, getButton,
      List.append_eq]
    have hk : i + (pre.length + 1) + 1 = i + 1 + pre.length + 1 := by omega
    have hb : i + (pre.length + 1) = i + 1 + pre.length := by omega
    rw [hk, hb, ih (i + 1)]

theorem mic_writes_keys (mics : List Microphone) (i m : Nat) :
    ∀ p ∈ mic_writes mics i m, ∃ j, i ≤ j ∧ j < i + mics.length ∧
      (p.1 = (2, j + 1) ∨ p.1 = (2, j + 1 + m)) := by
  induction mics generalizing i with
  | nil => intro p hp; cases hp
  | cons mic rest ih =>
    intro p hp
    simp only [mic_writes, List.cons_append, List.mem_cons] at hp
    rcases hp with h | hp
    · exact ⟨i, Nat.le_refl _, by simp, Or.inl (by rw [h])⟩
    · rcases List.mem_append.mp hp with h | h
      · by_cases hc : i + 1 + m < grid_cols
        · simp only [if_pos hc, List.mem_singleton] at h
          exact ⟨i, Nat.le_refl _, by simp, Or.inr (by rw [h])⟩
        · simp [if_neg hc] at h
      · rcases ih (i + 1) p h with ⟨j, hj1, hj2, hor⟩
        exact ⟨j, by omega, by simp at hj2 ⊢; omega, hor⟩

theorem getButton_mic_writes_none (mics : List Microphone) (i m c : Nat)
    (h : ∀ j, i ≤ j → j < i + mics.length → c ≠ j + 1 ∧ c ≠ j + 1 + m) :
    getButton (mic_writes mics i m) (2, c) = none :=
  getButton_eq_none _ _ (fun p hp hk => by
    rcases mic_writes_keys mics i m p hp with ⟨j, hj1, hj2, hor⟩
    rcases hor with h1 | h1 <;> rw [hk] at h1 <;>
      simp only [Prod.mk.injEq, true_and] at h1
    · exact (h j hj1 hj2).1 h1
    · exact (h j hj1 hj2).2 h1)

theorem getButton_mic_writes_mute_decomp (pre : List Microphone)
    (mic : Microphone) (post : List Microphone) (i m : Nat) (hm : 0 < m) :
    getButton (mic_writes (pre ++ mic :: post) i m) (2, i + pre.length + 1)
      = some (make_mute_button (i + pre.length) mic) := by
  induction pre generalizing i with
  | nil =>
    simp only [List.nil_append, mic_writes, List.length_nil, Nat.add_zero,
      List.cons_append, List.append_eq, getButton]
    rw [getButton_append]
    rw [getButton_mic_writes_lt post (i + 1) m 2 (i + 1) (by omega)]
    by_cases hc : i + 1 + m < grid_cols
    · simp only [if_pos hc]
      have hne : ((2 : Nat), i + 1 + m) ≠ ((2 : Nat), i + 1) := by
        simp only [ne_eq, Prod.mk.injEq, true_and]; omega
      simp [getButton, hne]
    · simp [if_neg hc, getButton]
  | cons p pre ih =>
    simp only [List.cons_append, mic_writes, List.length_cons, List.append_eq,
      getButton]
    have hk : i + (pre.length + 1) + 1 = i + 1 + pre.length + 1 := by omega
    have hb : i + (pre.length + 1) = i + 1 + pre.length := by omega
    rw [hk, hb]
    rw [getButton_append]
    rw [ih (i + 1)]

theorem getButton_mic_writes_unmute_decomp (pre : List Microphone)
    (mic : Microphone) (post : List Microphone) (i m : Nat)
    (hm : i + pre.length + 1 + post.length ≤ m) :
    getButton (mic_writes (pre ++ mic :: post) i m) (2, i + pre.length + 1 + m)
      = if i + pre.length + 1 + m < grid_cols
        then some (make_unmute_button (i + pre.length) mic)
        else none := by
  induction pre generalizing i with
  | nil =>
    simp only [List.nil_append, mic_writes, List.length_nil, Nat.add_zero,
      List.cons_append, List.append_eq, getButton]
    rw [getButton_append]
    rw [getButton_mic_writes_none post (i + 1) m (i + 1 + m)
      (by intro j hj1 hj2; simp at hm hj2; omega)]
    by_cases hc : i + 1 + m < grid_cols
    · simp only [if_pos hc]
      simp [getButton]
    · simp only [if_neg hc]
      have hne : ((2 : Nat), i + 1) ≠ ((2 : Nat), i + 1 + m) := by
        simp only [ne_eq, Prod.mk.injEq, true_and]; omega
      simp [getButton, hne]
  | cons p pre ih =>
    simp only [List.cons_append, mic_writes, List.length_cons, List.append_eq,
      getButton]
    have hk : i + (pre.length + 1) + 1 = i + 1 + pre.length + 1 := by omega
    have hb : i + (pre.length + 1) = i + 1 + pre.length := by omega
    rw [hk, hb]
    rw [getButton_append]
    rw [ih (i + 1) (by simp at hm; omega)]
    by_cases hfit : i + 1 + pre.length + 1 + m < grid_cols
    · rw [if_pos hfit]
    · rw [if_neg hfit]
      have hne1 : ¬(((2 : Nat), i + 1) = ((2 : Nat), i + 1 + pre.length + 1 + m)) := by
        simp only [Prod.mk.injEq, true_and]; omega
      by_cases hc : i + 1 + m < grid_cols
      · rw [if_pos hc]
        have hne2 : ¬(((2 : Nat), i + 1 + m) = ((2 : Nat), i + 1 + pre.length + 1 + m)) := by
          simp only [Prod.mk.injEq, true_and]; omega
        simp [getButton, hne1, hne2]
      · rw [if_neg hc]
        simp [getButton, hne1]

theorem getButton_preset_writes_decomp (pre : List LightingPreset)
    (p : LightingPreset) (post : List LightingPreset) (i : Nat) :
    getButton (preset_writes (pre ++ p :: post) i) (3, i + pre.length + 1)
      = some (make_preset_button (i + pre.length) p) := by
  induction pre generalizing i with
  | nil =>
    simp only [List.nil_append, preset_writes, List.length_nil, Nat.add_zero,
      getButton]
    rw [getButton_preset_writes_lt post (i + 1) 3 (i + 1) (by omega)]
    simp
  | cons q pre ih =>
    simp only [List.cons_append, preset_writes, List.length_cons, getButton,
      List.append_eq]
    have hk : i + (pre.length + 1) + 1 = i + 1 + pre.length + 1 := by omega
    have hb : i + (pre.length + 1) = i + 1 + pre.length := by omega
    rw [hk, hb, ih (i + 1)]

theorem preset_writes_length (presets : List LightingPreset) (i : Nat) :
    (preset_writes presets i).length = presets.length := by
  induction presets generalizing i with
  | nil => rfl
  | cons p rest ih => simp [preset_writes, ih]

end CompanionGenerator

namespace CompanionGenerator

theorem av_camera_button_at (e : Event) (i : Nat) (h : i < e.cameras_list.length) :
    getButton (build_av_control_page e) (1, i + 1)
      = some (make_camera_button i (e.cameras_list.get ⟨i, h⟩)) := by
  rw [getButton_av_row1 e (i + 1) (by omega)]
  conv_lhs => rw [← take_get_drop e.cameras_list i h]
  have hlen : (e.cameras_list.take i).length = i := by
    simp [List.length_take]; omega
  have hd := getButton_camera_writes_decomp (e.cameras_list.take i)
    (e.cameras_list.get ⟨i, h⟩) (e.cameras_list.drop (i + 1)) 0
  rw [hlen] at hd
  simpa using hd

theorem av_mute_button_at (e : Event) (i : Nat) (h : i < e.mics_list.length) :
    getButton (build_av_control_page e) (2, i + 1)
      = some (make_mute_button i (e.mics_list.get ⟨i, h⟩)) := by
  rw [getButton_av_row2 e (i + 1) (by omega)]
  set m := e.mics_list.length with hmdef
  conv_lhs => rw [← take_get_drop e.mics_list i h]
  have hlen : (e.mics_list.take i).length = i := by
    simp [List.length_take]; omega
  have hd := getButton_mic_writes_mute_decomp (e.mics_list.take i)
    (e.mics_list.get ⟨i, h⟩) (e.mics_list.drop (i + 1)) 0 m (by omega)
  rw [hlen] at hd
  simpa using hd

theorem av_unmute_button_at (e : Event) (i : Nat) (h : i < e.mics_list.length) :
    getButton (build_av_control_page e) (2, i + 1 + e.mics_list.length)
      = if i + 1 + e.mics_list.length < grid_cols
        then some (make_unmute_button i (e.mics_list.get ⟨i, h⟩))
        else none := by
  rw [getButton_av_row2 e (i + 1 + e.mics_list.length) (by omega)]
  set m := e.mics_list.length with hmdef
  conv_lhs => rw [← take_get_drop e.mics_list i h]
  have hlen : (e.mics_list.take i).length = i := by
    simp [List.length_take]; omega
  have hdrop : (e.mics_list.drop (i + 1)).length = m - (i + 1) := by
    simp [List.length_drop, hmdef]
  have hd := getButton_mic_writes_unmute_decomp (e.mics_list.take i)
    (e.mics_list.get ⟨i, h⟩) (e.mics_list.drop (i + 1)) 0 m
    (by rw [hlen, hdrop]; omega)
  rw [hlen] at hd
  simpa using hd

theorem av_preset_button_at (e : Event) (i : Nat)
    (h : i < min 7 e.presets_list.length) :
    getButton (build_av_control_page e) (3, i + 1)
      = some (make_preset_button i
          (e.presets_list.get ⟨i, lt_of_lt_of_le h (Nat.min_le_right 7 _)⟩)) := by
  rw [getButton_av_row3 e (i + 1) (by omega)]
  have h7 : i < (e.presets_list.take 7).length := by
    simp [List.length_take]; omega
  conv_lhs => rw [← take_get_drop (e.presets_list.take 7) i h7]
  have hlen : ((e.presets_list.take 7).take i).length = i := by
    simp [List.length_take]; omega
  have hd := getButton_preset_writes_decomp ((e.presets_list.take 7).take i)
    ((e.presets_list.take 7).get ⟨i, h7⟩) ((e.presets_list.take 7).drop (i + 1)) 0
  rw [hlen] at hd
  have hget : (e.presets_list.take 7).get ⟨i, h7⟩
      = e.presets_list.get ⟨i, lt_of_lt_of_le h (Nat.min_le_right 7 _)⟩ := by
    simp [List.get_eq_getElem]
  rw [hget] at hd
  simpa using hd

end CompanionGenerator

/-! ## String facts used for the checklist date analysis -/

theorem string_data_append (s t : String) : (s ++ t).data = s.data ++ t.data :=
  rfl

theorem string_data_inj {s t : String} (h : s.data = t.data) : s = t := by
  cases s; cases t; exact congrArg String.mk h

/-- The generated checklist determines the date it was generated on: two runs
of `ChecklistGenerator.generate` on the same event agree exactly when their
`datetime.now()` dates agree. -/
theorem checklist_date_inj (e : Event) (d₁ d₂ : String)
    (h : ChecklistGenerator.generate e d₁ = ChecklistGenerator.generate e d₂) :
    d₁ = d₂ := by
  have h' := congrArg String.data h
  simp only [ChecklistGenerator.generate, ChecklistGenerator.header, join_nl,
    string_data_append, List.append_assoc] at h'
  exact string_data_inj (List.append_cancel_right (List.append_cancel_left h'))

/-! ## Concrete inputs used by the claim theorems -/

/-- Tail-recursive worker for `split_nl`: `cur` is the current line reversed,
`acc` the finished lines reversed. -/
def split_nl_go : List Char → List Char → List (List Char) → List (List Char)
  | [], cur, acc => (cur.reverse :: acc).reverse
  | c :: rest, cur, acc =>
    if c = '\n' then split_nl_go rest [] (cur.reverse :: acc)
    else split_nl_go rest (c :: cur) acc

/-- Splitting a character list at newlines: `doc.split("\n")` at the
`List Char` level, used to state line-containment facts executably. -/
def split_nl (l : List Char) : List (List Char) :=
  split_nl_go l [] []

/-- The microphone of the spec's concrete scenario: `input_channel: 1`. -/
def mic1 : Microphone :=
  { id := some "mic1", input_channel := some 1 }

/-- Scenario cue 1: `timing: "pre-show"`. -/
def cue1 : Cue :=
  { number := some 1, name := some "Opening", type := some "lighting",
    timing := some "pre-show" }

/-- Scenario cue 2: `timing: "show"`. -/
def cue2 : Cue :=
  { number := some 2, name := some "Main", type := some "audio",
    timing := some "show" }

/-- Scenario cue 3: `timing: "post-show"`. -/
def cue3 : Cue :=
  { number := some 3, name := some "Close", type := some "lighting",
    timing := some "post-show" }

/-- The spec's concrete scenario input: three cues numbered 1-3 and one
microphone on input channel 1. -/
def ev_scenario : Event :=
  { event_type := some "recital",
    cues := some [cue1, cue2, cue3],
    audio := some { microphones := some [mic1] } }

/-- An overflow cue for the collision input. -/
def ov_cue (n : Nat) (timing : String) : Cue :=
  { number := some n, name := some ("C" ++ toString n), type := some "audio",
    timing := some timing }

/-- An input sized to overflow the pre-show bucket: nine pre-show cues and one
show-time cue. -/
def ev_overflow : Event :=
  { event_type := some "recital",
    cues := some [ov_cue 1 "pre-show", ov_cue 2 "pre-show", ov_cue 3 "pre-show",
                  ov_cue 4 "pre-show", ov_cue 5 "pre-show", ov_cue 6 "pre-show",
                  ov_cue 7 "pre-show", ov_cue 8 "pre-show", ov_cue 9 "pre-show",
                  ov_cue 10 "show"] }

/-- An input with nine cameras, nine microphones and nine lighting presets:
more devices than the 8-column grid can hold. -/
def ev_wide : Event :=
  { event_type := some "gala",
    cues := some [],
    video := some { cameras := some (List.replicate 9 {}) },
    audio := some { microphones := some (List.replicate 9 {}) },
    lighting := some { presets := some (List.replicate 9 {}) } }

/-- A minimal valid input: required keys only. -/
def ev_min : Event :=
  { event_type := some "recital", cues := some [] }

/-- A cue whose hub actions exercise every argument-type branch. -/
def cue_mixed : Cue :=
  { number := some 7,
    hub_actions := some
      [{ address := some "/fade/house", args := some [.pyFloat "2.5"] },
       { address := some "/avantis/ch/2/mix/mute", args := some [.pyInt 1] },
       { address := some "/obs/scene/Wide", args := some [.pyStr "Wide"] },
       { address := some "/system/check", args := some [] },
       { address := some "/lights/exec/2" }] }

/-- A cue with no hub actions at all. -/
def cue_plain : Cue :=
  { number := some 4 }

namespace CompanionGenerator

theorem place_bucket_rows (cs : List Cue) (row col : Nat) :
    ∀ p ∈ place_bucket cs row col, row ≤ p.1.1 := by
  induction cs generalizing row col with
  | nil => intro p hp; cases hp
  | cons c rest ih =>
    intro p hp
    simp only [place_bucket] at hp
    by_cases h : col ≥ grid_cols
    · rw [if_pos h] at hp
      rcases List.mem_cons.mp hp with h1 | h1
      · subst h1; show row ≤ row + 1; omega
      · have := ih (row + 1) 1 p h1; omega
    · rw [if_neg h] at hp
      rcases List.mem_cons.mp hp with h1 | h1
      · subst h1; exact Nat.le_refl _
      · exact ih row (col + 1) p h1

theorem show_control_cue_writes_rows (e : Event) :
    ∀ p ∈ show_control_cue_writes e, 1 ≤ p.1.1 := by
  intro p hp
  rcases List.mem_append.mp hp with h | h
  · rcases List.mem_append.mp h with h1 | h1
    · exact place_bucket_rows _ 1 0 p h1
    · have := place_bucket_rows _ 2 0 p h1; omega
  · have := place_bucket_rows _ 3 0 p h
    omega

theorem camera_writes_actions (cams : List Camera) (i : Nat) :
    ∀ p ∈ camera_writes cams i, p.2.actions ≠ [] := by
  induction cams generalizing i with
  | nil => intro p hp; cases hp
  | cons cam rest ih =>
    intro p hp
    rcases List.mem_cons.mp hp with h | h
    · subst h; simp [make_camera_button, make_button]
    · exact ih (i + 1) p h

theorem mic_writes_actions (mics : List Microphone) (i m : Nat) :
    ∀ p ∈ mic_writes mics i m, p.2.actions ≠ [] := by
  induction mics generalizing i with
  | nil => intro p hp; cases hp
  | cons mic rest ih =>
    intro p hp
    simp only [mic_writes, List.cons_append, List.mem_cons] at hp
    rcases hp with h | hp
    · subst h; simp [make_mute_button, make_button]
    · rcases List.mem_append.mp hp with h | h
      · by_cases hc : i + 1 + m < grid_cols
        · simp only [if_pos hc, List.mem_singleton] at h
          subst h; simp [make_unmute_button, make_button]
        · simp [if_neg hc] at h
      · exact ih (i + 1) p h

theorem preset_writes_actions (presets : List LightingPreset) (i : Nat) :
    ∀ p ∈ preset_writes presets i, p.2.actions ≠ [] := by
  induction presets generalizing i with
  | nil => intro p hp; cases hp
  | cons preset rest ih =>
    intro p hp
    rcases List.mem_cons.mp hp with h | h
    · subst h; simp [make_preset_button, make_button]
    · exact ih (i + 1) p h

theorem av_page_headers_or_actions (e : Event) :
    ∀ p ∈ build_av_control_page e, p.2.style = "header" ∨ p.2.actions ≠ [] := by
  intro p hp
  simp only [build_av_control_page, List.append_assoc, List.cons_append,
    List.nil_append, List.mem_cons, List.mem_append] at hp
  rcases hp with h | h | hp
  · subst h; exact Or.inl rfl
  · subst h; exact Or.inl rfl
  · rcases hp with h | h | hp
    · exact Or.inr (camera_writes_actions _ _ p h)
    · subst h; exact Or.inl rfl
    · rcases hp with h | h | h
      · exact Or.inr (mic_writes_actions _ _ _ p h)
      · subst h; exact Or.inl rfl
      · exact Or.inr (preset_writes_actions _ _ p h)

end CompanionGenerator

namespace Loader

theorem address_warnings_shape (e : Event) :
    ∀ w ∈ address_warnings e, ∃ cid a, w = Warning.unknownAddress cid a := by
  intro w hw
  simp only [address_warnings, List.mem_flatten, List.mem_map] at hw
  rcases hw with ⟨l, ⟨c, _, rfl⟩, hwl⟩
  rcases List.mem_filterMap.mp hwl with ⟨a, _, ha⟩
  by_cases hk : address_known (a.address.getD "")
  · simp [hk] at ha
  · rw [if_neg hk] at ha
    exact ⟨c.id, a.address.getD "", (Option.some.inj ha).symm⟩

theorem missingHub_mem_iff (e : Event) :
    Warning.missingHubConfig ∈ validation_warnings e
      ↔ (has_hub_actions e = true ∧ hub_config_missing e = true) := by
  constructor
  · intro h
    rcases List.mem_append.mp h with h | h
    · rcases address_warnings_shape e _ h with ⟨cid, a, hEq⟩
      cases hEq
    · by_cases hc : has_hub_actions e && hub_config_missing e
      · simpa using hc
      · simp [hc] at h
  · intro ⟨h1, h2⟩
    exact List.mem_append.mpr (Or.inr (by simp [h1, h2]))

end Loader

/-! ## Claim theorems -/

/-- C1 (counterexample): compiling the same minimal valid input with the
ambient date `2026-01-01` and with `2026-01-02` yields different checklist
bytes, so the checklist artifact is not a pure function of the input document
plus the selector. -/
theorem checklist_not_date_free :
    ChecklistGenerator.generate ev_min "2026-01-01"
      ≠ ChecklistGenerator.generate ev_min "2026-01-02" := by
  decide

/-- C1 (amended): every artifact is a pure function of the input document plus
the selector except the checklist, which additionally depends on the current
date through the `Generated` field of its header: two checklists compiled from
the same input are byte-identical exactly when the ambient `datetime.now()`
dates agree. -/
theorem checklist_purity_amended (e : Event) (d₁ d₂ : String) :
    ChecklistGenerator.generate e d₁ = ChecklistGenerator.generate e d₂ ↔ d₁ = d₂ :=
  ⟨checklist_date_inj e d₁ d₂, fun h => by rw [h]⟩

/-- C2: at the input whose pre-show bucket holds nine cues (plus one show-time
cue), the Show Control page's cue placement is NOT collision-free: the ninth
pre-show cue wraps to coordinate (2,0), the fixed starting cell of the
show-time bucket, so two distinct cues (`Q9` and `Q10`) are assigned the same
row/column coordinate and the later write overwrites the earlier one. -/
theorem show_control_overflow_collision :
    ¬ ((CompanionGenerator.show_control_cue_writes ev_overflow).map Prod.fst).Nodup ∧
    ((CompanionGenerator.show_control_cue_writes ev_overflow).filter
        (fun p => p.1 == ((2 : Nat), (0 : Nat)))).map (fun p => p.2.text)
      = ["Q9\nC9", "Q10\nC10"] := by
  decide

/-- The action variant the spec prescribes for one hub action, written from
the claim's wording: a float first argument gives the floating-point variant,
an integer the integer variant, a string or any other value the string variant
(value rendered as a string), and an absent or empty argument list the
no-argument trigger variant. -/
def spec_action_variant (ha : HubAction) : CompanionGenerator.OscAction :=
  match ha.args with
  | some (arg :: _) =>
    match arg with
    | .pyFloat s => .send_float (ha.address.getD "") s
    | .pyInt n => .send_integer (ha.address.getD "") n
    | .pyStr s => .send_string (ha.address.getD "") s
    | .pyOther s => .send_string (ha.address.getD "") s
  | _ => .send_no_args (ha.address.getD "")

/-- C3: a cue button carries exactly one action per HubAction, in the same
order, each with the variant selected by the type of the action's first
argument (per `spec_action_variant`); a cue with an empty or absent
`hub_actions` list gets the single no-argument action `/cue/{number}/start`. -/
theorem cue_button_action_spec (c : Cue) :
    (c.hub_actions.getD [] ≠ [] →
      (CompanionGenerator.make_cue_button c).actions
        = (c.hub_actions.getD []).map spec_action_variant) ∧
    (c.hub_actions.getD [] = [] →
      (CompanionGenerator.make_cue_button c).actions
        = [CompanionGenerator.OscAction.send_no_args
            ("/cue/" ++ CompanionGenerator.cue_number_str c ++ "/start")]) := by
  have hfun : ∀ ha, CompanionGenerator.osc_action_of ha = spec_action_variant ha :=
    fun ha => rfl
  constructor
  · intro h
    cases hl : c.hub_actions.getD [] with
    | nil => exact absurd hl h
    | cons a l =>
      simp only [CompanionGenerator.make_cue_button, CompanionGenerator.make_button,
        CompanionGenerator.hub_actions_to_osc, hl, List.isEmpty_cons,
        Bool.false_eq_true, if_false]
      exact List.map_congr_left (fun ha _ => hfun ha)
  · intro h
    simp only [CompanionGenerator.make_cue_button, CompanionGenerator.make_button, h,
      List.isEmpty_nil, if_true]

/-- C3 (witness): the dispatch at a cue exercising every branch (float,
integer, string, empty args, absent args) and at a cue with no hub actions. -/
theorem cue_button_action_spec_witness :
    (CompanionGenerator.make_cue_button cue_mixed).actions
        = (cue_mixed.hub_actions.getD []).map spec_action_variant ∧
    (CompanionGenerator.make_cue_button cue_plain).actions
        = [CompanionGenerator.OscAction.send_no_args "/cue/4/start"] :=
  ⟨(cue_button_action_spec cue_mixed).1 (by decide),
   (cue_button_action_spec cue_plain).2 (by decide)⟩

/-- C4: the hub endpoint (with fallback default `127.0.0.1:9000`) embedded in
the panel layout's connection descriptor, in the cue-sequencing (QLab) script,
in the graphics (TouchDesigner) script, and in the checklist's network section
are all equal, and the checklist's network section indeed renders that
endpoint on its "Production Hub running at" line. -/
theorem hub_endpoint_consistent (e : Event) :
    ((CompanionGenerator.build_osc_connection e).host,
        (CompanionGenerator.build_osc_connection e).port)
      = qlab_script_hub_endpoint e
    ∧ qlab_script_hub_endpoint e = touchdesigner_script_hub_endpoint e
    ∧ touchdesigner_script_hub_endpoint e = checklist_hub_endpoint e
    ∧ ("- [ ] Production Hub running at `" ++ (checklist_hub_endpoint e).1 ++ ":"
          ++ toString (checklist_hub_endpoint e).2 ++ "`")
        ∈ ChecklistGenerator.network_setup_lines e := by
  refine ⟨rfl, rfl, rfl, ?_⟩
  exact List.mem_cons_of_mem _ (List.mem_cons_of_mem _ (List.mem_cons_of_mem _
    (List.mem_cons_self _ _)))

set_option maxRecDepth 100000 in
/-- C5: on the concrete scenario input (cues 1-3 timed pre-show/show/post-show
and one microphone on channel 1) the three cue buttons land at (1,0), (2,0),
(3,0); the generated checklist (dated 2026-10-12 here) contains the three lines
starting `- [ ] **Q1**`, `- [ ] **Q2**`, `- [ ] **Q3**` in that numeric
order; and the mute and unmute buttons both target `/avantis/ch/1/mix/mute`
with integer values 1 and 0. -/
theorem scenario_artifacts :
    (CompanionGenerator.getButton (CompanionGenerator.build_show_control_page ev_scenario) (1, 0)
        = some (CompanionGenerator.make_cue_button cue1)
      ∧ CompanionGenerator.getButton (CompanionGenerator.build_show_control_page ev_scenario) (2, 0)
        = some (CompanionGenerator.make_cue_button cue2)
      ∧ CompanionGenerator.getButton (CompanionGenerator.build_show_control_page ev_scenario) (3, 0)
        = some (CompanionGenerator.make_cue_button cue3))
    ∧ (let L := split_nl (ChecklistGenerator.generate ev_scenario "2026-10-12").data
       let l₁ := (ChecklistGenerator.cue_line cue1).data
       let l₂ := (ChecklistGenerator.cue_line cue2).data
       let l₃ := (ChecklistGenerator.cue_line cue3).data
       ("- [ ] **Q1**".data.isPrefixOf l₁ ∧ "- [ ] **Q2**".data.isPrefixOf l₂
          ∧ "- [ ] **Q3**".data.isPrefixOf l₃)
        ∧ (l₁ ∈ L ∧ l₂ ∈ L ∧ l₃ ∈ L)
        ∧ (L.indexOf l₁ < L.indexOf l₂ ∧ L.indexOf l₂ < L.indexOf l₃))
    ∧ ((CompanionGenerator.getButton (CompanionGenerator.build_av_control_page ev_scenario) (2, 1)).map
          CompanionGenerator.Button.actions
        = some [CompanionGenerator.OscAction.send_integer "/avantis/ch/1/mix/mute" 1]
      ∧ (CompanionGenerator.getButton (CompanionGenerator.build_av_control_page ev_scenario) (2, 2)).map
          CompanionGenerator.Button.actions
        = some [CompanionGenerator.OscAction.send_integer "/avantis/ch/1/mix/mute" 0]) := by
  decide

/-- C6: the A/V page holds an unmute button for microphone `i` at row 2,
column `i + 1 + len(mics)`, exactly when that column is below the grid width
8; otherwise the unmute button is dropped and nothing is emitted there, and
the run's warnings are unchanged by the microphone inventory (the omission is
silent). -/
theorem unmute_truncation (e : Event) (i : Nat) (h : i < e.mics_list.length) :
    (CompanionGenerator.getButton (CompanionGenerator.build_av_control_page e)
        (2, i + 1 + e.mics_list.length)
      = if i + 1 + e.mics_list.length < 8
        then some (CompanionGenerator.make_unmute_button i (e.mics_list.get ⟨i, h⟩))
        else none)
    ∧ (∀ a : Option Audio,
        Loader.validation_warnings { e with audio := a } = Loader.validation_warnings e) :=
  ⟨CompanionGenerator.av_unmute_button_at e i h, fun _ => rfl⟩

/-- C6 (witness): with one microphone the unmute button sits at (2,2); with
nine microphones the first unmute column is 10, beyond the grid, and the cell
is empty; warnings are unaffected either way. -/
theorem unmute_truncation_witness :
    (CompanionGenerator.getButton (CompanionGenerator.build_av_control_page ev_scenario) (2, 2)
        = some (CompanionGenerator.make_unmute_button 0 mic1)
      ∧ Loader.validation_warnings { ev_scenario with audio := none }
        = Loader.validation_warnings ev_scenario)
    ∧ CompanionGenerator.getButton (CompanionGenerator.build_av_control_page ev_wide) (2, 10)
        = none := by
  refine ⟨⟨?_, (unmute_truncation ev_scenario 0 (by decide)).2 none⟩, ?_⟩
  · have h := (unmute_truncation ev_scenario 0 (by decide)).1
    simpa using h
  · have h := (unmute_truncation ev_wide 0 (by decide)).1
    simpa using h

/-- C7: the direct-control page carries exactly `min 7 n` lighting-preset
buttons for `n` presets in the model - one per preset for the first seven, at
row 3 columns 1-7, each firing the no-argument action `/lights/exec/{i+1}` -
and presets beyond the first seven are omitted. -/
theorem preset_cap (e : Event) :
    (CompanionGenerator.preset_writes (e.presets_list.take 7) 0).length
      = min 7 e.presets_list.length
    ∧ (∀ i, ∀ h : i < min 7 e.presets_list.length,
        CompanionGenerator.getButton (CompanionGenerator.build_av_control_page e) (3, i + 1)
          = some (CompanionGenerator.make_preset_button i
              (e.presets_list.get ⟨i, lt_of_lt_of_le h (Nat.min_le_right 7 _)⟩)))
    ∧ (∀ i p, (CompanionGenerator.make_preset_button i p).actions
        = [CompanionGenerator.OscAction.send_no_args ("/lights/exec/" ++ toString (i + 1))]) := by
  refine ⟨?_, ?_, fun i p => rfl⟩
  · rw [CompanionGenerator.preset_writes_length]
    simp [List.length_take]
  · intro i h
    exact CompanionGenerator.av_preset_button_at e i h

/-- C7 (witness): with nine presets in the model exactly seven buttons are
generated; button 7 sits at (3,7) firing `/lights/exec/7`, and column 8 of
row 3 is empty. -/
theorem preset_cap_witness :
    (CompanionGenerator.preset_writes (ev_wide.presets_list.take 7) 0).length = 7
    ∧ CompanionGenerator.getButton (CompanionGenerator.build_av_control_page ev_wide) (3, 7)
        = some (CompanionGenerator.make_preset_button 6 {})
    ∧ (CompanionGenerator.make_preset_button 6 {}).actions
        = [CompanionGenerator.OscAction.send_no_args "/lights/exec/7"] := by
  refine ⟨?_, ?_, (preset_cap ev_wide).2.2 6 {}⟩
  · have h := (preset_cap ev_wide).1
    simpa using h
  · have h := (preset_cap ev_wide).2.1 6 (by decide)
    simpa using h

/-- C8: loading fails fatally exactly when the event-type key or the cue-list
key is absent (and then no compiler input is produced); otherwise the data is
returned unchanged together with non-fatal warnings, and the missing-hub
warning is present exactly when some cue has hub actions but no hub endpoint
is configured. -/
theorem load_event_contract (e : Event) :
    ((∃ err, Loader.load_event e = .error err)
        ↔ (e.event_type = none ∨ e.cues = none))
    ∧ (Loader.load_event e = .ok (e, Loader.validation_warnings e)
        ↔ (e.event_type ≠ none ∧ e.cues ≠ none))
    ∧ (Loader.Warning.missingHubConfig ∈ Loader.validation_warnings e
        ↔ (Loader.has_hub_actions e = true ∧ Loader.hub_config_missing e = true)) := by
  refine ⟨?_, ?_, Loader.missingHub_mem_iff e⟩ <;>
    cases ht : e.event_type <;> cases hc : e.cues <;>
      simp [Loader.load_event, ht, hc]

/-- C9: the master GO and STOP buttons written at (0,2) and (0,3) of the Show
Control page carry no actions at all, while every cue button and every
non-header button of the A/V direct-control page carries at least one
action. -/
theorem go_stop_buttons_actionless :
    CompanionGenerator.make_go_button.actions = []
    ∧ CompanionGenerator.make_stop_button.actions = []
    ∧ (∀ e : Event,
        CompanionGenerator.getButton (CompanionGenerator.build_show_control_page e) (0, 2)
          = some CompanionGenerator.make_go_button
        ∧ CompanionGenerator.getButton (CompanionGenerator.build_show_control_page e) (0, 3)
          = some CompanionGenerator.make_stop_button)
    ∧ (∀ c : Cue, (CompanionGenerator.make_cue_button c).actions ≠ [])
    ∧ (∀ e : Event, ∀ p, p ∈ CompanionGenerator.build_av_control_page e →
        p.2.style ≠ "header" → p.2.actions ≠ []) := by
  refine ⟨rfl, rfl, ?_, ?_, ?_⟩
  · intro e
    have hcues : ∀ c, CompanionGenerator.getButton
        (CompanionGenerator.show_control_cue_writes e) (0, c) = none := by
      intro c
      exact CompanionGenerator.getButton_eq_none _ _ (fun p hp hk => by
        have := CompanionGenerator.show_control_cue_writes_rows e p hp
        rw [hk] at this
        omega)
    constructor <;>
      · show CompanionGenerator.getButton (_ ++ _) _ = _
        rw [CompanionGenerator.getButton_append, hcues]
        simp [CompanionGenerator.getButton, Prod.ext_iff]
  · intro c
    cases hl : c.hub_actions.getD [] with
    | nil =>
      simp [CompanionGenerator.make_cue_button, CompanionGenerator.make_button, hl]
    | cons a l =>
      simp [CompanionGenerator.make_cue_button, CompanionGenerator.make_button, hl,
        CompanionGenerator.hub_actions_to_osc]
  · intro e p hp hstyle
    rcases CompanionGenerator.av_page_headers_or_actions e p hp with h | h
    · exact absurd h hstyle
    · exact h

/-- C9 (witness): a concrete cue button and a concrete non-header device
button of the A/V page both carry at least one action. -/
theorem go_stop_buttons_actionless_witness :
    (CompanionGenerator.make_cue_button cue_plain).actions ≠ []
    ∧ (CompanionGenerator.make_mute_button 0 mic1).actions ≠ [] :=
  ⟨go_stop_buttons_actionless.2.2.2.1 cue_plain,
   go_stop_buttons_actionless.2.2.2.2 ev_scenario
     ((2, 1), CompanionGenerator.make_mute_button 0 mic1)
     (by
       have h1 : ((2, 1), CompanionGenerator.make_mute_button 0 mic1)
           ∈ CompanionGenerator.mic_writes ev_scenario.mics_list 0
               ev_scenario.mics_list.length :=
         List.mem_append_left _ (List.mem_cons_self _ _)
       exact List.mem_append_left _ (List.mem_append_left _ (List.mem_append_right _ h1)))
     (by decide)⟩

/-- C10: camera buttons and microphone mute buttons are written for every
device index, with no grid-width truncation: index `i` always maps to
(1, i+1) resp. (2, i+1), even when the column reaches or exceeds the declared
8-column width. -/
theorem av_rows_not_truncated (e : Event) (i : Nat) :
    (∀ h : i < e.cameras_list.length,
      CompanionGenerator.getButton (CompanionGenerator.build_av_control_page e) (1, i + 1)
        = some (CompanionGenerator.make_camera_button i (e.cameras_list.get ⟨i, h⟩)))
    ∧ (∀ h : i < e.mics_list.length,
      CompanionGenerator.getButton (CompanionGenerator.build_av_control_page e) (2, i + 1)
        = some (CompanionGenerator.make_mute_button i (e.mics_list.get ⟨i, h⟩))) :=
  ⟨fun h => CompanionGenerator.av_camera_button_at e i h,
   fun h => CompanionGenerator.av_mute_button_at e i h⟩

/-- C10 (witness): with nine cameras and nine microphones, index 8 yields
buttons at column 9, beyond the 8-column grid (columns 0-7). -/
theorem av_rows_not_truncated_witness :
    CompanionGenerator.getButton (CompanionGenerator.build_av_control_page ev_wide) (1, 9)
        = some (CompanionGenerator.make_camera_button 8 {})
    ∧ CompanionGenerator.getButton (CompanionGenerator.build_av_control_page ev_wide) (2, 9)
        = some (CompanionGenerator.make_mute_button 8 {}) := by
  constructor
  · have h := (av_rows_not_truncated ev_wide 8).1 (by decide)
    simpa using h
  · have h := (av_rows_not_truncated ev_wide 8).2 (by decide)
    simpa using h

/-- C1 (witness): the amended purity statement applied at a concrete input and
date. -/
theorem checklist_purity_amended_witness :
    ChecklistGenerator.generate ev_min "2026-02-03"
      = ChecklistGenerator.generate ev_min "2026-02-03" :=
  (checklist_purity_amended ev_min "2026-02-03" "2026-02-03").mpr rfl

/-- C4 (witness): the endpoint equalities at a concrete input. -/
theorem hub_endpoint_consistent_witness :
    ((CompanionGenerator.build_osc_connection ev_min).host,
        (CompanionGenerator.build_osc_connection ev_min).port)
      = qlab_script_hub_endpoint ev_min :=
  (hub_endpoint_consistent ev_min).1

/-- C8 (witness): a valid input loads successfully with its warnings, and an
input missing both required keys fails fatally. -/
theorem load_event_contract_witness :
    Loader.load_event ev_min = .ok (ev_min, Loader.validation_warnings ev_min)
    ∧ (∃ err, Loader.load_event ({} : Event) = .error err) :=
  ⟨(load_event_contract ev_min).2.1.mpr (by decide),
   (load_event_contract ({} : Event)).1.mpr (Or.inl rfl)⟩
